import Mathlib

/-!
Verification development for the WillhabenScrapper repository (`src/app.py`).

The Python program is shallowly embedded below:

* strings are `List Char` / `String`; Python regular-expression searches used by
  the field extractor are modelled by explicit leftmost-match scanning functions;
* naive timestamps (both the UTC stamps produced by `datetime.utcnow()` and the
  wall-clock timestamps of the `Europe/Vienna` zone that the posted-date parser
  manipulates) are modelled as `Int` seconds;  adding a `timedelta` to an aware
  datetime and then calling `.replace(tzinfo=None)` is plain wall-clock
  arithmetic, which is what the `Int` model performs;
* the persisted `cars` table is a `List CarRec`;  the SQLAlchemy queries of the
  background jobs become explicit list traversals (`find?`, `filter`, `map`);
* the browser is modelled as an environment (`PageEnv`) recording the outcome of
  each fallible interaction, and exceptions as `Except` values; prices are
  abstracted to `Option Int` (their numeric value is never computed on by the
  code under verification).

Fields `currency` (constant `'EUR'`), `fuel_type` and `transmission` (constant
`None` in every scraped record) are omitted from the record structures.
-/

/-- Single-character upper-casing for the character range used here (ASCII,
the German umlauts and `ë`).  This is the per-character comparison that
`re.IGNORECASE` literal matching performs (under which `ß` only matches `ß`:
the regex engine does not expand `ß` to `SS`); the string-level
`str.upper`, which does expand `ß`, is `pyUpperList` below. -/
def pyUpperChar (c : Char) : Char :=
  if c = 'ä' then 'Ä' else if c = 'ö' then 'Ö'
  else if c = 'ü' then 'Ü' else if c = 'ë' then 'Ë' else c.toUpper

/-- Model of Python `str.upper` at string level: character-wise upper-casing
plus the one length-changing case occurring in this character range,
`'ß'.upper() = "SS"`. -/
def pyUpperList : List Char → List Char
  | [] => []
  | c :: cs => (if c = 'ß' then ['S', 'S'] else [pyUpperChar c]) ++ pyUpperList cs

/-- Character-wise model of Python `str.lower` for the same character range. -/
def pyLowerChar (c : Char) : Char :=
  if c = 'Ä' then 'ä' else if c = 'Ö' then 'ö'
  else if c = 'Ü' then 'ü' else if c = 'Ë' then 'ë' else c.toLower

/-- Python whitespace (`\s`, `str.strip`): space, tab, newline, vertical tab,
form feed, carriage return and the no-break space. -/
def isSpacePy (c : Char) : Bool :=
  c = ' ' || c.toNat = 9 || c.toNat = 10 || c.toNat = 11 ||
  c.toNat = 12 || c.toNat = 13 || c.toNat = 160

/-- Python word character (`\w` with Unicode semantics) for the character range
used here: ASCII alphanumerics, underscore and the German letters. -/
def isWordCharPy (c : Char) : Bool :=
  c.isAlphanum || c = '_' || c = 'ä' || c = 'ö' || c = 'ü' || c = 'ß' ||
  c = 'Ä' || c = 'Ö' || c = 'Ü' || c = 'ë' || c = 'Ë'

/-- The character class `[A-Za-z0-9\-]` of the model regex. -/
def isAlnumHyphen (c : Char) : Bool :=
  c.isAlphanum || c = '-'

/-- Case-sensitive literal match at the head of the text. -/
def litAt : List Char → List Char → Bool
  | [], _ => true
  | _ :: _, [] => false
  | p :: ps, t :: ts => (p == t) && litAt ps ts

/-- Case-insensitive literal match at the head of the text (model of matching a
regex literal compiled with `re.IGNORECASE`). -/
def caselessAt : List Char → List Char → Bool
  | [], _ => true
  | _ :: _, [] => false
  | p :: ps, t :: ts => (pyUpperChar p == pyUpperChar t) && caselessAt ps ts

/-- Model of Python's substring test `needle in haystack`. -/
def listIsSubstr (n : List Char) : List Char → Bool
  | [] => n.isEmpty
  | t :: ts => litAt n (t :: ts) || listIsSubstr n ts

/-- Model of Python `str.strip()`. -/
def stripList (s : List Char) : List Char :=
  ((s.dropWhile isSpacePy).reverse.dropWhile isSpacePy).reverse

/-- Numeric value of a run of decimal digits. -/
def natOfDigits (ds : List Char) : Nat :=
  ds.foldl (fun a c => 10 * a + (c.toNat - 48)) 0

-- ===========================================================================
-- Data model (`Car` rows of src/app.py lines 168-214, scraped `car_data`
-- dictionaries of lines 454-470, `scrape_car_details` results of 613-694).
-- ===========================================================================

/-- A scraped listing as assembled by `scrape_listings` (the `car_data`
dictionary, src/app.py lines 454-470). -/
structure CarData where
  listing_id : String
  title : String
  price : Option Int
  brand : Option String
  model : Option String
  year : Option Nat
  mileage : Option Nat
  location : Option String
  image_urls : List String
  url : String
  description : String
  posted_at : Option Int
deriving DecidableEq

/-- A persisted `cars` row (src/app.py lines 168-191).  `first_seen_at`,
`last_seen_at`, `created_at`, `updated_at` are naive UTC timestamps in
seconds. -/
structure CarRec where
  listing_id : String
  title : String
  price : Option Int
  brand : Option String
  model : Option String
  year : Option Nat
  mileage : Option Nat
  location : Option String
  image_urls : List String
  url : String
  description : String
  posted_at : Option Int
  first_seen_at : Int
  last_seen_at : Int
  is_active : Bool
  created_at : Int
  updated_at : Int
deriving DecidableEq

/-- Result of `scrape_car_details` (src/app.py lines 613-694): the image
gallery (≤ 10 urls) and an optional posted date. -/
structure CarDetails where
  images : List String
  posted_at : Option Int
deriving DecidableEq

-- ===========================================================================
-- FieldExtractor: brand/model parsing (`_parse_brand_model`, lines 581-611).
-- ===========================================================================

/-- The fixed ordered brand vocabulary (src/app.py lines 582-591). -/
def commonBrands : List String :=
  ["Abarth", "Alfa Romeo", "Aston Martin", "Audi", "Bentley", "BMW", "Bugatti",
   "Cadillac", "Chevrolet", "Chrysler", "Citroën", "Citroen", "Cupra", "Dacia",
   "Dodge", "Ferrari", "Fiat", "Ford", "Honda", "Hummer", "Hyundai", "Infiniti",
   "Jaguar", "Jeep", "Kia", "Lamborghini", "Lancia", "Land Rover", "Lexus",
   "Maserati", "Mazda", "McLaren", "Mercedes-Benz", "Mercedes", "MG", "Mini",
   "Mitsubishi", "Nissan", "Opel", "Peugeot", "Porsche", "Renault", "Rolls-Royce",
   "Saab", "Seat", "Skoda", "Smart", "Subaru", "Suzuki", "Tesla", "Toyota",
   "Volkswagen", "VW", "Volvo"]

/-- Does the whole-word regex `\bBRAND\b` (compiled with `re.IGNORECASE`) match
`title` at position `i`?  Every brand starts and ends with a word character, so
the boundary conditions reduce to the neighbouring characters not being word
characters. -/
def wholeWordAt (brand title : List Char) (i : Nat) : Bool :=
  let seg := (title.drop i).take brand.length
  (seg.length == brand.length && caselessAt brand seg)
  && (i == 0 || !(isWordCharPy (title.getD (i - 1) ' ')))
  && (decide (title.length ≤ i + brand.length) ||
      !(isWordCharPy (title.getD (i + brand.length) ' ')))

/-- Leftmost match position of `\bBRAND\b` in `title` (the `pattern.search`
call of src/app.py line 598). -/
def wholeWordSearch (brand title : List Char) : Option Nat :=
  (List.range (title.length + 1)).find? (fun i => wholeWordAt brand title i)

/-- Group 1 of `re.match(r'^[\s\-]*([A-Za-z0-9\-]+(?:\s+[A-Za-z0-9\-]+)?)', s)`
(src/app.py line 602).  The star is greedy; when no token character follows the
maximal skip, the regex backtracks and, if the skipped prefix contains a
hyphen, the group matches the single hyphen at the rightmost hyphen position
(the following characters are spaces or a non-token character, so the token
stops after one hyphen and the optional second token never matches). -/
def modelGroup (s : List Char) : Option (List Char) :=
  let skip := s.takeWhile (fun c => isSpacePy c || c = '-')
  let rest := s.drop skip.length
  let tok1 := rest.takeWhile isAlnumHyphen
  if tok1.isEmpty then
    if skip.contains '-' then some ['-'] else none
  else
    let r2 := rest.drop tok1.length
    let sp := r2.takeWhile isSpacePy
    let tok2 := (r2.drop sp.length).takeWhile isAlnumHyphen
    if !sp.isEmpty && !tok2.isEmpty then some (tok1 ++ sp ++ tok2) else some tok1

/-- Model of `re.sub(r'[^\w\s\-]', '', model)` (src/app.py line 605). -/
def pySubKeep (s : List Char) : List Char :=
  s.filter (fun c => isWordCharPy c || isSpacePy c || c = '-')

/-- The brand loop of `_parse_brand_model` (src/app.py lines 595-611): the
first brand whose upper-cased name is a substring of the upper-cased title is
selected; a whole-word occurrence is then required only to attempt model
extraction. -/
def parse_brand_model_go (title : List Char) : List String → Option String × Option String
  | [] => (none, none)
  | b :: bs =>
    if listIsSubstr (pyUpperList b.toList) (pyUpperList title) then
      match wholeWordSearch b.toList title with
      | some i =>
        let after := stripList (title.drop (i + b.toList.length))
        match modelGroup after with
        | some g =>
          let m := stripList (pySubKeep (stripList g))
          if decide (1 < m.length) then (some b, some (String.mk m)) else (some b, none)
        | none => (some b, none)
      | none => (some b, none)
    else parse_brand_model_go title bs

/-- `_parse_brand_model` (src/app.py lines 581-611). -/
def parse_brand_model (title : String) : Option String × Option String :=
  parse_brand_model_go title.toList commonBrands

/-- The brand `_parse_brand_model` selects: the first entry of the ordered
vocabulary whose upper-cased name (Python `str.upper`, `ß` included) is a
substring of the upper-cased title (the `brand.upper() in title_upper` test of
src/app.py line 596). -/
def selectedBrand (title : List Char) : Option String :=
  commonBrands.find? (fun b => listIsSubstr (pyUpperList b.toList) (pyUpperList title))

/-- The model `_parse_brand_model` extracts for a selected brand (src/app.py
lines 597-609): a whole-word occurrence of the brand is required; the tokens
after its first occurrence are captured, cleaned and length-checked, and any
failure along the way yields an absent model. -/
def modelForBrand (title : List Char) (b : String) : Option String :=
  match wholeWordSearch b.toList title with
  | some i =>
    let after := stripList (title.drop (i + b.toList.length))
    match modelGroup after with
    | some g =>
      let m := stripList (pySubKeep (stripList g))
      if decide (1 < m.length) then some (String.mk m) else none
    | none => none
  | none => none

-- ===========================================================================
-- FieldExtractor: posted-date parsing (`_extract_posted_date`, lines 527-579).
-- ===========================================================================

/-- Model of `text.replace(' Uhr', '')`: delete every occurrence, left to
right. -/
def removeUhr : List Char → List Char
  | ' ' :: 'U' :: 'h' :: 'r' :: rest => removeUhr rest
  | c :: rest => c :: removeUhr rest
  | [] => []

/-- The cleaning step of `_extract_posted_date` (src/app.py line 528):
no-break spaces become plain spaces, then every `" Uhr"` is removed. -/
def cleanPostedText (t : List Char) : List Char :=
  removeUhr (t.map (fun c => if c.toNat = 160 then ' ' else c))

/-- Day-month, year, hour and minute captured by a date pattern, before
`strptime` validation. -/
structure DateParts where
  day : Nat
  month : Nat
  year : Nat
  hour : Nat
  minute : Nat
deriving DecidableEq

/-- Parse `\d{1,2}\.` at the head of the text (greedy with the only viable
backtracking: two digits followed by a dot, else one digit followed by a
dot). -/
def parseDayDot (s : List Char) : Option (Nat × List Char) :=
  match s with
  | a :: rest =>
    if a.isDigit then
      match rest with
      | b :: rest2 =>
        if b.isDigit then
          match rest2 with
          | '.' :: rest3 => some (natOfDigits [a, b], rest3)
          | _ => none
        else if b = '.' then some (natOfDigits [a], rest2)
        else none
      | [] => none
    else none
  | [] => none

/-- Parse `\d{4}` at the head of the text. -/
def parseYear4 (s : List Char) : Option (Nat × List Char) :=
  match s with
  | a :: b :: c :: d :: rest =>
    if a.isDigit && b.isDigit && c.isDigit && d.isDigit then
      some (natOfDigits [a, b, c, d], rest)
    else none
  | _ => none

/-- Parse `\d{1,2}:\d{2}` at the head of the text. -/
def parseHM (s : List Char) : Option (Nat × Nat) :=
  match s with
  | a :: b :: rest =>
    if a.isDigit then
      if b.isDigit then
        match rest with
        | ':' :: m1 :: m2 :: _ =>
          if m1.isDigit && m2.isDigit then
            some (natOfDigits [a, b], natOfDigits [m1, m2])
          else none
        | _ => none
      else if b = ':' then
        match rest with
        | m1 :: m2 :: _ =>
          if m1.isDigit && m2.isDigit then
            some (natOfDigits [a], natOfDigits [m1, m2])
          else none
        | _ => none
      else none
    else none
  | _ => none

/-- Parse `(\d{1,2}\.\d{1,2}\.\d{4})(?:,\s*(\d{1,2}:\d{2}))?` at the head of
the text; a missing time group yields `00:00` (src/app.py lines 541, 572). -/
def parseDateAt (s : List Char) : Option DateParts :=
  match parseDayDot s with
  | none => none
  | some (d, r1) =>
    match parseDayDot r1 with
    | none => none
    | some (m, r2) =>
      match parseYear4 r2 with
      | none => none
      | some (y, r3) =>
        match r3 with
        | ',' :: r4 =>
          match parseHM (r4.dropWhile isSpacePy) with
          | some (h, mi) => some ⟨d, m, y, h, mi⟩
          | none => some ⟨d, m, y, 0, 0⟩
        | _ => some ⟨d, m, y, 0, 0⟩

/-- Leftmost match of the bare-date fallback pattern (src/app.py lines
566-569). -/
def searchFallback : List Char → Option DateParts
  | [] => none
  | c :: rest =>
    match parseDateAt (c :: rest) with
    | some p => some p
    | none => searchFallback rest

/-- Match one labelled alternative `kw1\s+kw2` case-insensitively at the head
of the text, returning the rest. -/
def munchLabel (kw1 kw2 s : List Char) : Option (List Char) :=
  if caselessAt kw1 s then
    let r1 := s.drop kw1.length
    let sp := r1.takeWhile isSpacePy
    if sp.isEmpty then none
    else
      let r2 := r1.drop sp.length
      if caselessAt kw2 r2 then some (r2.drop kw2.length) else none
  else none

/-- Match `(?:zuletzt\s+geändert|erstellt\s+am)` at the head of the text. -/
def labelAt (s : List Char) : Option (List Char) :=
  match munchLabel ("zuletzt".toList) ("geändert".toList) s with
  | some r => some r
  | none => munchLabel ("erstellt".toList) ("am".toList) s

/-- Consume `\s*:?\s*` (src/app.py line 533). -/
def munchSep (s : List Char) : List Char :=
  let r := s.dropWhile isSpacePy
  match r with
  | ':' :: r2 => r2.dropWhile isSpacePy
  | _ => r

/-- Leftmost match of the explicit labelled-date pattern (src/app.py lines
532-538). -/
def searchExplicit : List Char → Option DateParts
  | [] => none
  | c :: rest =>
    match labelAt (c :: rest) with
    | some r =>
      match parseDateAt (munchSep r) with
      | some p => some p
      | none => searchExplicit rest
    | none => searchExplicit rest

/-- Match `vor\s+(\d+)\s+STEM` at the head of the (lower-cased) text; the
optional character class after the stem (`[n]?`, `[en]?`) never affects
whether a search succeeds. -/
def relAt (stem s : List Char) : Option Nat :=
  if litAt ("vor".toList) s then
    let r1 := s.drop 3
    let sp1 := r1.takeWhile isSpacePy
    if sp1.isEmpty then none
    else
      let r2 := r1.drop sp1.length
      let ds := r2.takeWhile Char.isDigit
      if ds.isEmpty then none
      else
        let r3 := r2.drop ds.length
        let sp2 := r3.takeWhile isSpacePy
        if sp2.isEmpty then none
        else if litAt stem (r3.drop sp2.length) then some (natOfDigits ds) else none
  else none

/-- Leftmost match of a relative-date pattern (src/app.py lines 548, 552,
556). -/
def searchRel (stem : List Char) : List Char → Option Nat
  | [] => none
  | c :: rest =>
    match relAt stem (c :: rest) with
    | some n => some n
    | none => searchRel stem rest

/-- Gregorian leap year. -/
def isLeapYear (y : Nat) : Bool :=
  (y % 4 = 0 && y % 100 ≠ 0) || y % 400 = 0

/-- Days in a month. -/
def daysInMonth (y m : Nat) : Nat :=
  if m = 2 then (if isLeapYear y then 29 else 28)
  else if m = 4 || m = 6 || m = 9 || m = 11 then 30
  else 31

/-- The validation `datetime.strptime` performs on the captured fields: a
parse of an out-of-range date or time raises, which the surrounding
`try/except` converts into a `None` result for the whole extraction. -/
def validDate (p : DateParts) : Bool :=
  1 ≤ p.year && 1 ≤ p.month && p.month ≤ 12 &&
  1 ≤ p.day && p.day ≤ daysInMonth p.year p.month &&
  p.hour ≤ 23 && p.minute ≤ 59

/-- Days since 1970-01-01 of a civil date (all intermediate quantities are
non-negative for the years accepted by `validDate`). -/
def daysFromCivil (y m d : Nat) : Int :=
  let y2 : Int := (y : Int) - (if m ≤ 2 then 1 else 0)
  let era : Int := (if 0 ≤ y2 then y2 else y2 - 399) / 400
  let yoe : Int := y2 - era * 400
  let mp : Int := ((m : Int) + 9) % 12
  let doy : Int := (153 * mp + 2) / 5 + (d : Int) - 1
  let doe : Int := yoe * 365 + yoe / 4 - yoe / 100 + doy
  era * 146097 + doe - 719468

/-- Wall-clock seconds of a parsed local date. -/
def dmyhmToSecs (p : DateParts) : Int :=
  daysFromCivil p.year p.month p.day * 86400 +
  (p.hour : Int) * 3600 + (p.minute : Int) * 60

/-- The tail of the extraction chain (src/app.py lines 560-574): `heute`,
`gestern`, then the bare-date fallback. -/
def postedChainTail (nowLocal offset : Int) (cleaned lowered : List Char) : Option Int :=
  if listIsSubstr ("heute".toList) lowered then some (nowLocal + offset)
  else if listIsSubstr ("gestern".toList) lowered then some (nowLocal - 86400 + offset)
  else
    match searchFallback cleaned with
    | some p => if validDate p then some (dmyhmToSecs p + offset) else none
    | none => none

/-- `_extract_posted_date` (src/app.py lines 527-579).  `nowLocal` is the
wall-clock time `datetime.now(CET)` in seconds; `offset` is
`POSTED_AT_HARD_OFFSET` in seconds.  All results are naive wall-clock
timestamps (the code strips the timezone after adding the offset). -/
def extract_posted_date (nowLocal offset : Int) (text : List Char) : Option Int :=
  let cleaned := cleanPostedText text
  match searchExplicit cleaned with
  | some p => if validDate p then some (dmyhmToSecs p + offset) else none
  | none =>
    let lowered := cleaned.map pyLowerChar
    if listIsSubstr ("vor".toList) lowered then
      match searchRel ("minute".toList) lowered with
      | some n => some (nowLocal - (n : Int) * 60 + offset)
      | none =>
        match searchRel ("stunde".toList) lowered with
        | some n => some (nowLocal - (n : Int) * 3600 + offset)
        | none =>
          match searchRel ("tag".toList) lowered with
          | some n => some (nowLocal - (n : Int) * 86400 + offset)
          | none => postedChainTail nowLocal offset cleaned lowered
    else postedChainTail nowLocal offset cleaned lowered

/-- `POSTED_AT_HARD_OFFSET` in seconds for a configured number of hours
(src/app.py lines 146-147; the default configuration is one hour). -/
def posted_at_hard_offset (hours : Int) : Int :=
  hours * 3600

-- ===========================================================================
-- CatalogSynchronizer: the database part of `scrape_and_store_cars`
-- (src/app.py lines 702-774).
-- ===========================================================================

/-- Look up a record by listing id (`Car.query.filter_by(listing_id=...)
.first()`). -/
def findById (i : String) (s : List CarRec) : Option CarRec :=
  s.find? (fun r => r.listing_id == i)

/-- A freshly inserted row `Car(**car_data)` (src/app.py line 736): the column
defaults set `first_seen_at`, `last_seen_at`, `created_at`, `updated_at` to
`utcnow` and `is_active` to `True`. -/
def newCar (now : Int) (d : CarData) : CarRec :=
  { listing_id := d.listing_id, title := d.title, price := d.price,
    brand := d.brand, model := d.model, year := d.year, mileage := d.mileage,
    location := d.location, image_urls := d.image_urls, url := d.url,
    description := d.description, posted_at := d.posted_at,
    first_seen_at := now, last_seen_at := now, is_active := true,
    created_at := now, updated_at := now }

/-- The update applied to an existing record for a batch item (src/app.py
lines 726-733): refresh `last_seen_at`, force `is_active`, overwrite `price`
unconditionally, refresh `updated_at`, then overwrite `posted_at` and
`image_urls` only when the new value is truthy (a datetime is always truthy,
an empty list never is). -/
def apply_observation (now : Int) (d : CarData) (r : CarRec) : CarRec :=
  let r1 := { r with last_seen_at := now, is_active := true,
                     price := d.price, updated_at := now }
  let r2 := match d.posted_at with
    | some p => { r1 with posted_at := some p }
    | none => r1
  if d.image_urls.isEmpty then r2 else { r2 with image_urls := d.image_urls }

/-- Upsert one batch item (src/app.py lines 723-740): update the first record
with the same listing id in place, otherwise append a new row.  The boolean
reports whether a row was added. -/
def upsertOne (now : Int) (d : CarData) : List CarRec → List CarRec × Bool
  | [] => ([newCar now d], true)
  | r :: rest =>
    if r.listing_id == d.listing_id then (apply_observation now d r :: rest, false)
    else
      let out := upsertOne now d rest
      (r :: out.1, out.2)

/-- Outcome of the per-batch upsert loop. -/
structure UpsertOut where
  state : List CarRec
  added : Nat
  updated : Nat
  newIds : List String
deriving DecidableEq

/-- The upsert loop over the whole batch (src/app.py lines 722-740), keeping
the `cars_added`/`cars_updated` counters and the newly added listing ids in
batch order. -/
def upsertBatch (now : Int) : List CarData → List CarRec → UpsertOut
  | [], s => { state := s, added := 0, updated := 0, newIds := [] }
  | d :: ds, s =>
    let step := upsertOne now d s
    let rest := upsertBatch now ds step.1
    if step.2 then
      { rest with added := rest.added + 1, newIds := d.listing_id :: rest.newIds }
    else
      { rest with updated := rest.updated + 1 }

/-- The effect of the per-batch upsert loop on the record stored under one
listing id: each batch item carrying that id updates the record in place, the
first one inserting a fresh row when none exists yet. -/
def syncFoldRecord (now : Int) (ds : List CarData) (cur : Option CarRec) : Option CarRec :=
  ds.foldl
    (fun acc d =>
      match acc with
      | some r => some (apply_observation now d r)
      | none => some (newCar now d)) cur

/-- The deactivation guard (src/app.py line 742): the id set of the batch is
non-empty and more than 10 items were scraped. -/
def deactivation_guard (batch : List CarData) : Bool :=
  !(batch.map (fun d => d.listing_id)).isEmpty && decide (10 < batch.length)

/-- The bulk update of src/app.py lines 743-748 applied to one row: an active
record whose listing id is absent from the batch becomes inactive. -/
def deactivate_absent (currentIds : List String) (r : CarRec) : CarRec :=
  if !(currentIds.contains r.listing_id) && r.is_active then
    { r with is_active := false }
  else r

/-- Outcome of one synchronisation run. -/
structure SyncOut where
  state : List CarRec
  added : Nat
  updated : Nat
  newIds : List String
deriving DecidableEq

/-- The catalog part of `scrape_and_store_cars` (src/app.py lines 720-753):
upsert every batch item, then, only when the guard holds, mark every active
record whose listing id is absent from the batch as inactive. -/
def store_scraped_cars (now : Int) (batch : List CarData) (s : List CarRec) : SyncOut :=
  let ub := upsertBatch now batch s
  let currentIds := batch.map (fun d => d.listing_id)
  let s2 :=
    if deactivation_guard batch then ub.state.map (deactivate_absent currentIds)
    else ub.state
  { state := s2, added := ub.added, updated := ub.updated, newIds := ub.newIds }

-- ===========================================================================
-- Retention cleanup (`cleanup_inactive_cars`, src/app.py lines 911-930).
-- ===========================================================================

/-- `cleanup_inactive_cars`: delete every record that is inactive and whose
`last_seen_at` is strictly before `utcnow - 7 days` (604800 seconds). -/
def cleanup_inactive_cars (now : Int) (s : List CarRec) : List CarRec :=
  s.filter (fun r => !(!r.is_active && decide (r.last_seen_at < now - 604800)))

-- ===========================================================================
-- DetailEnricher consumers: background and priority enrichment
-- (src/app.py lines 777-850 and 853-908).  `scrape_car_details` itself is
-- browser IO; its result for a listing is supplied by an oracle
-- `String → CarDetails` keyed by listing id.
-- ===========================================================================

/-- The per-record update of the background enrichment loop (src/app.py lines
822-837): replace the gallery only when the result is non-empty and strictly
larger than `max(current, 1)`; store a found posted date when it differs from
the stored one; refresh `updated_at`. -/
def enrich_update (now : Int) (details : CarDetails) (car : CarRec) : CarRec :=
  let c1 :=
    if !details.images.isEmpty &&
       decide (max car.image_urls.length 1 < details.images.length) then
      { car with image_urls := details.images }
    else car
  let c2 := match details.posted_at with
    | some p => if c1.posted_at ≠ some p then { c1 with posted_at := some p } else c1
    | none => c1
  { c2 with updated_at := now }

/-- The per-record update of the priority enrichment loop (src/app.py lines
883-895): replace the gallery only when the result is non-empty and the stored
gallery has at most one image; store a found posted date when absent or
different; refresh `updated_at`. -/
def priority_update (now : Int) (details : CarDetails) (car : CarRec) : CarRec :=
  let c1 :=
    if !details.images.isEmpty &&
       (car.image_urls.isEmpty || decide (car.image_urls.length ≤ 1)) then
      { car with image_urls := details.images }
    else car
  let c2 := match details.posted_at with
    | some p =>
      if c1.posted_at = none || c1.posted_at ≠ some p then
        { c1 with posted_at := some p }
      else c1
    | none => c1
  { c2 with updated_at := now }

/-- Insert a record into a list sorted by `first_seen_at` descending. -/
def insertFirstSeenDesc (r : CarRec) : List CarRec → List CarRec
  | [] => [r]
  | x :: xs =>
    if x.first_seen_at ≤ r.first_seen_at then r :: x :: xs
    else x :: insertFirstSeenDesc r xs

/-- Sort by `first_seen_at` descending (`order_by(Car.first_seen_at.desc())`;
ties are in unspecified database order, modelled by this stable sort). -/
def sortFirstSeenDesc : List CarRec → List CarRec
  | [] => []
  | x :: xs => insertFirstSeenDesc x (sortFirstSeenDesc xs)

/-- The candidate selection of `enrich_cars_with_images` (src/app.py lines
783-795): the 200 most recently first-seen active records, of which the first
20 with at most one stored image are enriched. -/
def selectNeedingImages (s : List CarRec) : List String :=
  let cand := (sortFirstSeenDesc (s.filter (fun r => r.is_active))).take 200
  ((cand.filter (fun r => r.image_urls.length ≤ 1)).take 20).map (fun r => r.listing_id)

/-- `enrich_cars_with_images` (src/app.py lines 777-850): apply
`enrich_update` to every selected record (listing ids are unique in the
store, enforced by the database constraint). -/
def enrich_cars_with_images (now : Int) (oracle : String → CarDetails)
    (s : List CarRec) : List CarRec :=
  let sel := selectNeedingImages s
  s.map (fun r =>
    if sel.contains r.listing_id then enrich_update now (oracle r.listing_id) r else r)

/-- Order-preserving deduplication, Python `list(dict.fromkeys(listing_ids))`
(src/app.py line 858): the first occurrence wins. -/
def dedupKeepFirst : List String → List String → List String
  | [], _ => []
  | x :: xs, seen =>
    if seen.contains x then dedupKeepFirst xs seen
    else x :: dedupKeepFirst xs (x :: seen)

/-- `priority_enrich_latest` (src/app.py lines 853-908).  The returned boolean
records whether the catalog was accessed at all: with `None` or an empty id
list the function returns before entering the application context, performing
no read or write. -/
def priority_enrich_latest (now : Int) (oracle : String → CarDetails)
    (listing_ids : Option (List String)) (max_items : Nat)
    (s : List CarRec) : List CarRec × Bool :=
  match listing_ids with
  | none => (s, false)
  | some ids =>
    if ids.isEmpty then (s, false)
    else
      let limited := (dedupKeepFirst ids []).take max_items
      (s.map (fun r =>
        if limited.contains r.listing_id then priority_update now (oracle r.listing_id) r
        else r), true)

/-- A scheduler tick of the `priority_enrich` job (src/app.py lines
1186-1193): `priority_enrich_latest` is registered as the job function and is
therefore invoked with its defaults `listing_ids=None`, `max_items=10`. -/
def priority_enrich_tick (now : Int) (oracle : String → CarDetails)
    (s : List CarRec) : List CarRec × Bool :=
  priority_enrich_latest now oracle none 10 s

-- ===========================================================================
-- ListingDiscoverer (`scrape_listings`, src/app.py lines 250-486).  The
-- browser is an environment recording the outcome of each fallible
-- interaction; exceptions are `Except` values caught exactly where the
-- source catches them.
-- ===========================================================================

/-- Outcome of `page.goto` (src/app.py lines 257-266). -/
inductive NavOutcome
  | success
  | timeout
  | navError
deriving DecidableEq

/-- One anchor element matching `a[href*="/gebrauchtwagen/"]`.  `linkFails`
models an exception while reading the link (caught per link, line 330);
`extractFails` models an exception in the per-candidate extraction block
(caught per candidate, line 475); `data` abstracts the DOM extraction of the
candidate (title, thumbnail, field parsing). -/
structure RawLink where
  href : Option String
  linkFails : Bool
  extractFails : Bool
  data : CarData
deriving DecidableEq

/-- The page state one discovery run observes. -/
structure PageEnv where
  nav : NavOutcome
  gridRendered : Bool
  pageFails : Bool
  links : List RawLink
deriving DecidableEq

/-- Leftmost match of the path-segment id pattern of src/app.py line 313 (a
dash or slash, then a captured run `\d` repeated at least six times, then `/`,
`?` or the end of the string).  The greedy run cannot backtrack successfully,
since a shortened run is followed by a digit. -/
def idMatchA : List Char → Option (List Char)
  | [] => none
  | c :: rest =>
    if c = '-' || c = '/' then
      let run := rest.takeWhile Char.isDigit
      let after := rest.drop run.length
      if decide (6 ≤ run.length) &&
         (after.isEmpty || after.headD ' ' = '/' || after.headD ' ' = '?') then
        some run
      else idMatchA rest
    else idMatchA rest

/-- Try `KEY=(\d+)` for one key at the head of the text. -/
def idKeyAt (key s : List Char) : Option (List Char) :=
  if litAt key s then
    let ds := (s.drop key.length).takeWhile Char.isDigit
    if ds.isEmpty then none else some ds
  else none

/-- Leftmost match of `(?:adId|insertId|entryId)=(\d+)` (src/app.py line
313). -/
def idMatchB : List Char → Option (List Char)
  | [] => none
  | c :: rest =>
    match idKeyAt ("adId=".toList) (c :: rest) with
    | some ds => some ds
    | none =>
      match idKeyAt ("insertId=".toList) (c :: rest) with
      | some ds => some ds
      | none =>
        match idKeyAt ("entryId=".toList) (c :: rest) with
        | some ds => some ds
        | none => idMatchB rest

/-- The ordered pair of id-extraction patterns (src/app.py line 313). -/
def extract_listing_id (href : String) : Option String :=
  match idMatchA href.toList with
  | some ds => some (String.mk ds)
  | none => (idMatchB href.toList).map String.mk

/-- Candidate collection (src/app.py lines 302-332): skip links that fail or
have no href, extract an id, skip ids already seen, reject search/category
paths, and remember the id as seen only for accepted links. -/
def collectCands : List RawLink → List String → List (String × RawLink)
  | [], _ => []
  | l :: rest, seen =>
    if l.linkFails then collectCands rest seen
    else
      match l.href with
      | none => collectCands rest seen
      | some h =>
        match extract_listing_id h with
        | none => collectCands rest seen
        | some lid =>
          if seen.contains lid then collectCands rest seen
          else if listIsSubstr ("/gebrauchtwagenboerse".toList) h.toList ||
                  listIsSubstr ("/kategorie".toList) h.toList then
            collectCands rest seen
          else (lid, l) :: collectCands rest (lid :: seen)

/-- The per-candidate extraction loop (src/app.py lines 341-477): up to
`maxCars` candidates in order; an extraction error skips the candidate and the
batch continues. -/
def candidateCars (maxCars : Nat) (cands : List (String × RawLink)) : List CarData :=
  (cands.take maxCars).foldl
    (fun acc c =>
      if c.2.extractFails then acc
      else acc ++ [{ c.2.data with listing_id := c.1 }]) []

/-- The one fault the outer `try/except` of `scrape_listings` can still
observe: a page interaction outside the inner handlers (the scroll/evaluate
step, line 296). -/
inductive ScrapeFault
  | pageFault
deriving DecidableEq

/-- The body of `scrape_listings` inside the outer `try` (src/app.py lines
254-479), returning the scraped batch and whether the session was reset. -/
def scrape_body (maxCars : Nat) (env : PageEnv) :
    Except ScrapeFault (List CarData × Bool) :=
  match env.nav with
  | .timeout => .ok ([], true)
  | .navError => .ok ([], true)
  | .success =>
    if !env.gridRendered then .ok ([], true)
    else if env.pageFails then .error .pageFault
    else
      let cands := collectCands env.links []
      if cands.isEmpty then .ok ([], true)
      else .ok (candidateCars maxCars cands, false)

/-- `scrape_listings` (src/app.py lines 250-486): the outer `except` catches
any remaining fault, logs it, and returns the cars collected so far (none)
without resetting the session. -/
def scrape_listings (maxCars : Nat) (env : PageEnv) : List CarData × Bool :=
  match scrape_body maxCars env with
  | .ok r => r
  | .error _ => ([], false)

-- ===========================================================================
-- Concrete inputs used by the witness and counterexample theorems.
-- ===========================================================================

/-- A batch item with the given listing id and no optional data. -/
def plainItem (i : String) : CarData :=
  { listing_id := i, title := i, price := none, brand := none, model := none,
    year := none, mileage := none, location := none, image_urls := [],
    url := i, description := i, posted_at := none }

/-- A stored record with the given id, timestamps and activity flag. -/
def plainRec (i : String) (firstSeen lastSeen : Int) (active : Bool) : CarRec :=
  { listing_id := i, title := i, price := none, brand := none, model := none,
    year := none, mileage := none, location := none, image_urls := [],
    url := i, description := i, posted_at := none,
    first_seen_at := firstSeen, last_seen_at := lastSeen, is_active := active,
    created_at := firstSeen, updated_at := lastSeen }

/-- A discovery batch of five distinct items. -/
def batchFiveW : List CarData :=
  [plainItem ("1"), plainItem ("2"), plainItem ("3"), plainItem ("4"), plainItem ("5")]

/-- A discovery batch of fifteen distinct items. -/
def batchFifteenW : List CarData :=
  [plainItem ("1"), plainItem ("2"), plainItem ("3"), plainItem ("4"), plainItem ("5"),
   plainItem ("6"), plainItem ("7"), plainItem ("8"), plainItem ("9"), plainItem ("10"),
   plainItem ("11"), plainItem ("12"), plainItem ("13"), plainItem ("14"), plainItem ("15")]

/-- An inactive stored record whose id reappears in `batchFiveW`. -/
def carInactive1W : CarRec := plainRec ("1") 0 0 false

/-- An active stored record whose id is absent from `batchFifteenW`. -/
def carAbsent99W : CarRec := plainRec ("99") 0 0 true

/-- An active record storing no images. -/
def carNoImagesW : CarRec := plainRec ("n1") 0 0 true

/-- An active record storing two images. -/
def carTwoImagesW : CarRec :=
  { plainRec ("t1") 0 0 true with image_urls := ["a", "b"] }

/-- An enrichment oracle that always returns a single image. -/
def oracleOneImageW : String → CarDetails := fun _ => { images := ["u1"], posted_at := none }

/-- An enrichment oracle that always returns three images. -/
def oracleThreeImagesW : String → CarDetails :=
  fun _ => { images := ["c", "d", "e"], posted_at := none }

/-- A two-image enrichment result. -/
def detTwoImagesW : CarDetails := { images := ["u1", "u2"], posted_at := none }

/-- A one-image enrichment result. -/
def detOneImageW : CarDetails := { images := ["u1"], posted_at := none }

/-- A batch item carrying no price, posted date or image. -/
def dEmptyW : CarData := plainItem ("p1")

/-- A stored record carrying a price, a posted date and an image. -/
def rStoredW : CarRec :=
  { plainRec ("p1") 0 5 true with
    price := some 5000, posted_at := some 3, image_urls := ["img"] }

/-- An inactive record last seen exactly at the retention cutoff for
`now = 1000000`. -/
def recExactW : CarRec := plainRec ("e1") 0 395200 false

/-- An inactive record last seen one second before the retention cutoff for
`now = 1000000`. -/
def recOldW : CarRec := plainRec ("e2") 0 395199 false

/-- An active record last seen far before the retention cutoff. -/
def recActiveW : CarRec := plainRec ("e3") 0 0 true

/-- A stored record used by the invariant witness. -/
def recW1 : CarRec := plainRec ("w1") 10 20 true

/-- A batch item used by the invariant witness. -/
def itemW1 : CarData := plainItem ("w1")

/-- A discovery environment whose navigation timed out. -/
def envTimeoutW : PageEnv :=
  { nav := NavOutcome.timeout, gridRendered := false, pageFails := false, links := [] }

/-- A link whose candidate extraction succeeds. -/
def linkGoodW : RawLink :=
  { href := some "/iad/gebrauchtwagen/auto/bmw-1234567/", linkFails := false,
    extractFails := false, data := plainItem ("x") }

/-- A link whose per-candidate extraction raises. -/
def linkFailW : RawLink :=
  { href := some "/iad/gebrauchtwagen/auto/vw-7654321/", linkFails := false,
    extractFails := true, data := plainItem ("y") }

/-- A healthy discovery environment with one good and one failing candidate. -/
def envGoodW : PageEnv :=
  { nav := NavOutcome.success, gridRendered := true, pageFails := false,
    links := [linkGoodW, linkFailW] }

-- ===========================================================================
-- Helper lemmas.
-- ===========================================================================

theorem apply_observation_listing_id (now : Int) (d : CarData) (r : CarRec) :
    (apply_observation now d r).listing_id = r.listing_id := by
  unfold apply_observation
  cases d.posted_at <;> by_cases h : d.image_urls.isEmpty <;> simp [h]

theorem apply_observation_is_active (now : Int) (d : CarData) (r : CarRec) :
    (apply_observation now d r).is_active = true := by
  unfold apply_observation
  cases d.posted_at <;> by_cases h : d.image_urls.isEmpty <;> simp [h]

theorem apply_observation_first_seen (now : Int) (d : CarData) (r : CarRec) :
    (apply_observation now d r).first_seen_at = r.first_seen_at := by
  unfold apply_observation
  cases d.posted_at <;> by_cases h : d.image_urls.isEmpty <;> simp [h]

theorem apply_observation_last_seen (now : Int) (d : CarData) (r : CarRec) :
    (apply_observation now d r).last_seen_at = now := by
  unfold apply_observation
  cases d.posted_at <;> by_cases h : d.image_urls.isEmpty <;> simp [h]

theorem deactivate_absent_listing_id (ids : List String) (r : CarRec) :
    (deactivate_absent ids r).listing_id = r.listing_id := by
  unfold deactivate_absent
  split <;> rfl

theorem deactivate_absent_first_seen (ids : List String) (r : CarRec) :
    (deactivate_absent ids r).first_seen_at = r.first_seen_at := by
  unfold deactivate_absent
  split <;> rfl

theorem deactivate_absent_last_seen (ids : List String) (r : CarRec) :
    (deactivate_absent ids r).last_seen_at = r.last_seen_at := by
  unfold deactivate_absent
  split <;> rfl

theorem carrec_set_active_self (r : CarRec) : { r with is_active := r.is_active } = r := by
  cases r
  rfl

theorem findById_map_of_id (f : CarRec → CarRec)
    (hf : ∀ r, (f r).listing_id = r.listing_id) (s : List CarRec) (i : String) :
    findById i (s.map f) = (findById i s).map f := by
  induction s with
  | nil => rfl
  | cons r rest ih =>
    simp only [findById, List.map_cons, List.find?_cons] at ih ⊢
    rw [hf r]
    cases h : r.listing_id == i <;> simp [h, ih]

theorem findById_id (i : String) (s : List CarRec) (r : CarRec)
    (h : findById i s = some r) : r.listing_id = i := by
  have hp := List.find?_some h
  exact beq_iff_eq.mp hp


theorem upsertOne_find_other (now : Int) (d : CarData) (i : String)
    (hne : i ≠ d.listing_id) (s : List CarRec) :
    findById i (upsertOne now d s).1 = findById i s := by
  induction s with
  | nil =>
    have hb : ((newCar now d).listing_id == i) = false := by
      simp only [newCar, beq_eq_false_iff_ne, ne_eq]
      exact fun h => hne h.symm
    simp [upsertOne, findById, List.find?_cons, hb]
  | cons r rest ih =>
    by_cases h : r.listing_id == d.listing_id
    · have hri : (r.listing_id == i) = false := by
        simp only [beq_iff_eq] at h
        rw [h, beq_eq_false_iff_ne]
        exact fun hc => hne hc.symm
      have hai : ((apply_observation now d r).listing_id == i) = false := by
        rw [apply_observation_listing_id]
        exact hri
      simp [upsertOne, h, findById, List.find?_cons, hai, hri]
    · simp only [upsertOne, h, Bool.false_eq_true, if_false]
      simp only [findById, List.find?_cons] at ih ⊢
      cases hri : r.listing_id == i <;> simp [hri, ih]

theorem upsertOne_find_self (now : Int) (d : CarData) (s : List CarRec) :
    findById d.listing_id (upsertOne now d s).1 =
      some (match findById d.listing_id s with
            | some r => apply_observation now d r
            | none => newCar now d) := by
  induction s with
  | nil =>
    have hb : ((newCar now d).listing_id == d.listing_id) = true := by simp [newCar]
    simp [upsertOne, findById, List.find?_cons, hb]
  | cons r rest ih =>
    by_cases h : r.listing_id == d.listing_id
    · have hai : ((apply_observation now d r).listing_id == d.listing_id) = true := by
        rw [apply_observation_listing_id]
        exact h
      simp [upsertOne, h, findById, List.find?_cons, hai]
    · simp only [upsertOne, h, Bool.false_eq_true, if_false]
      simp only [findById, List.find?_cons] at ih ⊢
      simp [h, ih]

theorem upsertBatch_cons_state (now : Int) (d : CarData) (ds : List CarData)
    (s : List CarRec) :
    (upsertBatch now (d :: ds) s).state =
      (upsertBatch now ds (upsertOne now d s).1).state := by
  simp only [upsertBatch]
  split <;> rfl

theorem syncFoldRecord_cons (now : Int) (d : CarData) (ds : List CarData)
    (cur : Option CarRec) :
    syncFoldRecord now (d :: ds) cur =
      syncFoldRecord now ds
        (some (match cur with
               | some r => apply_observation now d r
               | none => newCar now d)) := by
  cases cur <;> rfl

theorem upsertBatch_find (now : Int) (batch : List CarData) :
    ∀ (s : List CarRec) (i : String),
      findById i (upsertBatch now batch s).state =
        syncFoldRecord now (batch.filter (fun d => d.listing_id == i)) (findById i s) := by
  induction batch with
  | nil => intro s i; rfl
  | cons d ds ih =>
    intro s i
    rw [upsertBatch_cons_state, ih]
    by_cases h : (d.listing_id == i) = true
    · have hieq : i = d.listing_id := (beq_iff_eq.mp h).symm
      subst hieq
      have hf : List.filter (fun x => x.listing_id == d.listing_id) (d :: ds) =
          d :: List.filter (fun x => x.listing_id == d.listing_id) ds := by
        simp [List.filter_cons]
      rw [hf, syncFoldRecord_cons, upsertOne_find_self]
    · have hf : List.filter (fun x => x.listing_id == i) (d :: ds) =
          List.filter (fun x => x.listing_id == i) ds := by
        simp [List.filter_cons, h]
      rw [hf, upsertOne_find_other now d i (fun hc => by simp [hc] at h) s]

theorem syncFoldRecord_active (now : Int) (ds : List CarData) :
    ∀ cur : Option CarRec, ds ≠ [] →
      (syncFoldRecord now ds cur).map (fun r => r.is_active) = some true := by
  induction ds with
  | nil => intro cur h; exact absurd rfl h
  | cons d ds ih =>
    intro cur _
    rw [syncFoldRecord_cons]
    cases ds with
    | nil =>
      cases cur with
      | none => simp [syncFoldRecord, newCar]
      | some r => simp [syncFoldRecord, apply_observation_is_active]
    | cons e es => exact ih _ (by simp)

theorem syncFoldRecord_first (now : Int) (ds : List CarData) :
    ∀ r : CarRec,
      (syncFoldRecord now ds (some r)).map (fun x => x.first_seen_at) =
        some r.first_seen_at := by
  induction ds with
  | nil => intro r; rfl
  | cons d ds ih =>
    intro r
    rw [syncFoldRecord_cons]
    rw [ih (apply_observation now d r)]
    rw [apply_observation_first_seen]

theorem upsertOne_forall (now : Int) (d : CarData) (P : CarRec → Prop)
    (hP : ∀ r, P r → P (apply_observation now d r)) (hnew : P (newCar now d)) :
    ∀ s : List CarRec, (∀ r ∈ s, P r) → ∀ r ∈ (upsertOne now d s).1, P r := by
  intro s
  induction s with
  | nil =>
    intro _ r hr
    simp only [upsertOne, List.mem_singleton] at hr
    exact hr ▸ hnew
  | cons x rest ih =>
    intro hall r hr
    by_cases h : (x.listing_id == d.listing_id) = true
    · simp only [upsertOne, h, if_true, List.mem_cons] at hr
      rcases hr with hr | hr
      · exact hr ▸ hP x (hall x (by simp))
      · exact hall r (by simp [hr])
    · simp only [upsertOne, h, Bool.false_eq_true, if_false, List.mem_cons] at hr
      rcases hr with hr | hr
      · exact hr ▸ hall x (by simp)
      · exact ih (fun y hy => hall y (by simp [hy])) r hr

theorem upsertBatch_forall (now : Int) (P : CarRec → Prop)
    (hP : ∀ d r, P r → P (apply_observation now d r))
    (hnew : ∀ d, P (newCar now d)) (batch : List CarData) :
    ∀ s : List CarRec, (∀ r ∈ s, P r) → ∀ r ∈ (upsertBatch now batch s).state, P r := by
  induction batch with
  | nil => intro s hall; exact hall
  | cons d ds ih =>
    intro s hall r hr
    rw [upsertBatch_cons_state] at hr
    exact ih (upsertOne now d s).1
      (upsertOne_forall now d P (hP d) (hnew d) s hall) r hr

theorem store_scraped_cars_state (now : Int) (batch : List CarData) (s : List CarRec) :
    (store_scraped_cars now batch s).state =
      (if deactivation_guard batch then
        (upsertBatch now batch s).state.map
          (deactivate_absent (batch.map (fun d => d.listing_id)))
      else (upsertBatch now batch s).state) := rfl

theorem foldl_if_append {α β : Type} (p : α → Bool) (g : α → β) (l : List α) :
    ∀ acc : List β,
      l.foldl (fun a c => if p c then a else a ++ [g c]) acc =
        acc ++ l.filterMap (fun c => if p c then none else some (g c)) := by
  induction l with
  | nil => intro acc; simp
  | cons c cs ih =>
    intro acc
    by_cases h : p c = true <;> simp [h, ih, List.filterMap_cons]

theorem candidateCars_eq_filterMap (maxCars : Nat) (cands : List (String × RawLink)) :
    candidateCars maxCars cands =
      (cands.take maxCars).filterMap (fun c =>
        if c.2.extractFails then none
        else some { c.2.data with listing_id := c.1 }) := by
  unfold candidateCars
  rw [foldl_if_append]
  rfl

theorem parse_go_eq (title : List Char) (bs : List String) :
    parse_brand_model_go title bs =
      (match bs.find? (fun b => listIsSubstr (pyUpperList b.toList) (pyUpperList title)) with
       | some b => (some b, modelForBrand title b)
       | none => (none, none)) := by
  induction bs with
  | nil => rfl
  | cons x bs ih =>
    by_cases hx : listIsSubstr (pyUpperList x.toList) (pyUpperList title) = true
    · have hfind : (x :: bs).find?
          (fun b => listIsSubstr (pyUpperList b.toList) (pyUpperList title)) = some x := by
        rw [List.find?_cons, hx]
      rw [hfind]
      simp only [parse_brand_model_go, hx, if_true]
      unfold modelForBrand
      cases hw : wholeWordSearch x.toList title with
      | none => rfl
      | some i =>
        dsimp only
        cases hg : modelGroup (stripList (title.drop (i + x.toList.length))) with
        | none => rfl
        | some g =>
          dsimp only
          split <;> rfl
    · have hxf : listIsSubstr (pyUpperList x.toList) (pyUpperList title) = false := by
        simpa using hx
      have hfind : (x :: bs).find?
          (fun b => listIsSubstr (pyUpperList b.toList) (pyUpperList title)) =
          bs.find? (fun b => listIsSubstr (pyUpperList b.toList) (pyUpperList title)) := by
        rw [List.find?_cons, hxf]
      rw [hfind]
      simp only [parse_brand_model_go, hxf, Bool.false_eq_true, if_false]
      exact ih

theorem enrich_update_images (now : Int) (det : CarDetails) (car : CarRec) :
    (enrich_update now det car).image_urls =
      (if !det.images.isEmpty &&
          decide (max car.image_urls.length 1 < det.images.length)
       then det.images else car.image_urls) := by
  unfold enrich_update
  cases det.posted_at with
  | none => split <;> simp_all
  | some p =>
    by_cases hc : (!det.images.isEmpty &&
        decide (max car.image_urls.length 1 < det.images.length)) = true <;>
      simp only [hc, if_true, Bool.false_eq_true, if_false] <;> split <;> simp_all

theorem ite_posted (c : Prop) [Decidable c] (car : CarRec) (imgs : List String) :
    (if c then { car with image_urls := imgs } else car).posted_at = car.posted_at := by
  split <;> rfl

theorem enrich_update_posted (now : Int) (det : CarDetails) (car : CarRec) :
    (enrich_update now det car).posted_at =
      (match det.posted_at with
       | some p => some p
       | none => car.posted_at) := by
  unfold enrich_update
  cases det.posted_at with
  | none => split <;> simp_all
  | some p =>
    dsimp only
    simp only [ite_posted]
    by_cases hpp : car.posted_at = some p <;> simp [hpp, ite_posted] <;>
      split <;> simp_all

theorem priority_update_images (now : Int) (det : CarDetails) (car : CarRec) :
    (priority_update now det car).image_urls =
      (if !det.images.isEmpty &&
          (car.image_urls.isEmpty || decide (car.image_urls.length ≤ 1))
       then det.images else car.image_urls) := by
  unfold priority_update
  cases det.posted_at with
  | none => split <;> simp_all
  | some p =>
    by_cases hc : (!det.images.isEmpty &&
        (car.image_urls.isEmpty || decide (car.image_urls.length ≤ 1))) = true <;>
      simp only [hc, if_true, Bool.false_eq_true, if_false] <;> split <;> simp_all

theorem priority_update_posted (now : Int) (det : CarDetails) (car : CarRec) :
    (priority_update now det car).posted_at =
      (match det.posted_at with
       | some p => some p
       | none => car.posted_at) := by
  unfold priority_update
  cases det.posted_at with
  | none => split <;> simp_all
  | some p =>
    dsimp only
    simp only [ite_posted]
    by_cases hpp : car.posted_at = some p <;> simp [hpp, ite_posted] <;>
      split <;> simp_all

-- ===========================================================================
-- Claim theorems.
-- ===========================================================================

/-- C2: for a batch item matching an existing record, the sync step sets
`last_seen_at` to now, forces `is_active`, overwrites `price` unconditionally
(absent included), overwrites `posted_at` and `image_urls` only when the new
value is non-empty, and leaves the stored value unchanged otherwise (it also
never touches `first_seen_at`). -/
theorem claim_C2 (now : Int) (d : CarData) (r : CarRec) :
    (apply_observation now d r).last_seen_at = now
  ∧ (apply_observation now d r).is_active = true
  ∧ (apply_observation now d r).price = d.price
  ∧ (apply_observation now d r).first_seen_at = r.first_seen_at
  ∧ (d.posted_at = none → (apply_observation now d r).posted_at = r.posted_at)
  ∧ (∀ p, d.posted_at = some p → (apply_observation now d r).posted_at = some p)
  ∧ (d.image_urls = [] → (apply_observation now d r).image_urls = r.image_urls)
  ∧ (d.image_urls ≠ [] → (apply_observation now d r).image_urls = d.image_urls) := by
  refine ⟨apply_observation_last_seen now d r, apply_observation_is_active now d r,
    ?_, apply_observation_first_seen now d r, ?_, ?_, ?_, ?_⟩ <;>
    unfold apply_observation <;>
    cases hp : d.posted_at <;> by_cases hi : d.image_urls.isEmpty <;>
      simp_all

/-- Witness for C2 at a concrete input: a batch item with absent price, absent
posted date and no image leaves the stored posted date and gallery unchanged
while wiping the stored price. -/
theorem claim_C2_witness :
    (apply_observation 50 dEmptyW rStoredW).price = none
  ∧ (apply_observation 50 dEmptyW rStoredW).posted_at = some 3
  ∧ (apply_observation 50 dEmptyW rStoredW).image_urls = ["img"]
  ∧ (apply_observation 50 dEmptyW rStoredW).last_seen_at = 50 := by
  have h := claim_C2 50 dEmptyW rStoredW
  refine ⟨h.2.2.1.trans rfl, (h.2.2.2.2.1 rfl).trans rfl,
    (h.2.2.2.2.2.2.1 rfl).trans rfl, h.1⟩

/-- C3: the retention cleanup deletes exactly the inactive records whose
`last_seen_at` is strictly older than `now - 7 days`; a record last seen
exactly at the cutoff, or an active record, is kept. -/
theorem claim_C3 (now : Int) (s : List CarRec) (r : CarRec) (hr : r ∈ s) :
    r ∈ cleanup_inactive_cars now s ↔
      ¬(r.is_active = false ∧ r.last_seen_at < now - 604800) := by
  unfold cleanup_inactive_cars
  rw [List.mem_filter]
  constructor
  · rintro ⟨-, hp⟩ ⟨ha, hl⟩
    simp [ha, hl] at hp
  · intro hn
    refine ⟨hr, ?_⟩
    by_cases ha : r.is_active
    · simp [ha]
    · have hl : ¬(r.last_seen_at < now - 604800) :=
        fun hl => hn ⟨by simpa using ha, hl⟩
      simp [ha, hl]

/-- Witness for C3 at `now = 1000000` (cutoff `395200`): the inactive record
last seen exactly at the cutoff survives, the one last seen one second earlier
is deleted, the active record survives. -/
theorem claim_C3_witness :
    recExactW ∈ cleanup_inactive_cars 1000000 [recExactW, recOldW, recActiveW]
  ∧ recOldW ∉ cleanup_inactive_cars 1000000 [recExactW, recOldW, recActiveW]
  ∧ recActiveW ∈ cleanup_inactive_cars 1000000 [recExactW, recOldW, recActiveW] := by
  refine ⟨?_, ?_, ?_⟩
  · exact (claim_C3 1000000 _ recExactW (by decide)).mpr (by decide)
  · intro hmem
    exact absurd ((claim_C3 1000000 _ recOldW (by decide)).mp hmem) (by decide)
  · exact (claim_C3 1000000 _ recActiveW (by decide)).mpr (by decide)

/-- C10: `priority_enrich_latest` invoked with `None` or with an empty id list
returns immediately, performing no catalog read or write, and a scheduled
priority-enrichment tick (which calls the function with no arguments) leaves
the persisted state unchanged. -/
theorem claim_C10 (now : Int) (oracle : String → CarDetails) (maxItems : Nat)
    (s : List CarRec) :
    priority_enrich_latest now oracle none maxItems s = (s, false)
  ∧ priority_enrich_latest now oracle (some []) maxItems s = (s, false)
  ∧ priority_enrich_tick now oracle s = (s, false) := by
  exact ⟨rfl, rfl, rfl⟩

/-- C4 counterexample: an active record storing zero images is selected for
background enrichment, the enrichment yields exactly one image (strictly more
than the stored zero), and yet the stored gallery is NOT updated — the code
requires the new count to exceed `max(current, 1)`, not the current count. -/
theorem claim_C4_counterexample :
    carNoImagesW.is_active = true
  ∧ carNoImagesW.image_urls = []
  ∧ (oracleOneImageW carNoImagesW.listing_id).images = ["u1"]
  ∧ findById ("n1") (enrich_cars_with_images 7 oracleOneImageW [carNoImagesW]) =
      some { carNoImagesW with updated_at := 7 } := by
  decide

/-- C4 (amended): background enrichment replaces the stored gallery exactly
when the enrichment result is strictly larger than `max(current image count,
1)`; in particular a record with zero stored images needs at least two new
images, and a one-image result never updates it.  A found posted date is
always stored. -/
theorem claim_C4_amended (now : Int) (det : CarDetails) (car : CarRec) :
    (max car.image_urls.length 1 < det.images.length →
        (enrich_update now det car).image_urls = det.images)
  ∧ (det.images.length ≤ max car.image_urls.length 1 →
        (enrich_update now det car).image_urls = car.image_urls)
  ∧ (∀ p, det.posted_at = some p → (enrich_update now det car).posted_at = some p)
  ∧ (det.posted_at = none → (enrich_update now det car).posted_at = car.posted_at) := by
  refine ⟨?_, ?_, ?_, ?_⟩
  · intro h
    have hne : det.images.isEmpty = false := by
      cases him : det.images with
      | nil => rw [him] at h; simp at h
      | cons a l => simp
    rw [enrich_update_images, if_pos (by simp [hne, h])]
  · intro h
    rw [enrich_update_images, if_neg (by simp; omega)]
  · intro p hp
    rw [enrich_update_posted, hp]
  · intro hp
    rw [enrich_update_posted, hp]

/-- Witness for C4 (amended): a zero-image record is updated by a two-image
result but not by a one-image result. -/
theorem claim_C4_amended_witness :
    (enrich_update 7 detTwoImagesW carNoImagesW).image_urls = ["u1", "u2"]
  ∧ (enrich_update 7 detOneImageW carNoImagesW).image_urls = [] := by
  constructor
  · exact ((claim_C4_amended 7 detTwoImagesW carNoImagesW).1 (by decide)).trans rfl
  · exact ((claim_C4_amended 7 detOneImageW carNoImagesW).2.1 (by decide)).trans rfl

/-- C5 counterexample: a priority-enriched record storing two images receives
a three-image enrichment result (strictly more than stored), yet the stored
gallery is NOT replaced — priority enrichment only replaces galleries holding
at most one image. -/
theorem claim_C5_counterexample :
    carTwoImagesW.image_urls.length < (oracleThreeImagesW carTwoImagesW.listing_id).images.length
  ∧ ((findById ("t1")
        (priority_enrich_latest 9 oracleThreeImagesW (some ["t1"]) 10 [carTwoImagesW]).1).map
      (fun r => r.image_urls)) = some ["a", "b"]
  ∧ (oracleThreeImagesW carTwoImagesW.listing_id).images ≠ ["a", "b"] := by
  decide

/-- C5 (amended): priority enrichment replaces the stored gallery exactly when
the enrichment result is non-empty and the stored gallery holds at most one
image — a larger result never replaces a gallery of two or more images, and an
empty result never replaces anything; a non-absent enrichment posted date
always ends up stored. -/
theorem claim_C5_amended (now : Int) (det : CarDetails) (car : CarRec) :
    (det.images ≠ [] → car.image_urls.length ≤ 1 →
        (priority_update now det car).image_urls = det.images)
  ∧ (det.images = [] → (priority_update now det car).image_urls = car.image_urls)
  ∧ (2 ≤ car.image_urls.length → (priority_update now det car).image_urls = car.image_urls)
  ∧ (∀ p, det.posted_at = some p → (priority_update now det car).posted_at = some p)
  ∧ (det.posted_at = none → (priority_update now det car).posted_at = car.posted_at) := by
  refine ⟨?_, ?_, ?_, ?_, ?_⟩
  · intro h1 h2
    rw [priority_update_images, if_pos (by simp [h1, h2])]
  · intro h
    rw [priority_update_images, if_neg (by simp [h])]
  · intro h
    rw [priority_update_images, if_neg ?_]
    simp only [Bool.and_eq_true, Bool.or_eq_true, not_and, decide_eq_true_eq]
    intro _
    rintro (he | hle)
    · rw [List.isEmpty_iff] at he
      rw [he] at h
      simp at h
    · omega
  · intro p hp
    rw [priority_update_posted, hp]
  · intro hp
    rw [priority_update_posted, hp]

/-- Witness for C5 (amended): a one-image gallery is replaced by a three-image
result, a two-image gallery is not. -/
theorem claim_C5_amended_witness :
    (priority_update 9 detTwoImagesW carNoImagesW).image_urls = ["u1", "u2"]
  ∧ (priority_update 9 detTwoImagesW carTwoImagesW).image_urls = ["a", "b"] := by
  constructor
  · exact ((claim_C5_amended 9 detTwoImagesW carNoImagesW).1 (by decide) (by decide)).trans rfl
  · exact ((claim_C5_amended 9 detTwoImagesW carTwoImagesW).2.2.1 (by decide)).trans rfl

/-- C6 counterexample: the title `"AMG"` contains no whole-word occurrence of
any vocabulary brand, yet brand parsing reports `"MG"` (the substring test of
line 596 selects the brand; the whole-word regex is only used afterwards, and
its failure still returns the brand with no model). -/
theorem claim_C6_counterexample :
    wholeWordSearch ("MG".toList) ("AMG".toList) = none
  ∧ parse_brand_model ("AMG") = (some "MG", none) := by
  decide

/-- C6 (amended): for every title, brand parsing returns exactly the first
brand of the fixed ordered vocabulary whose Python-upper-cased name (`ß`
expanding to `SS`) is a substring of the upper-cased title, with the model
extracted by the whole-word-gated token rule (`modelForBrand`) for that brand
— so a title with no vocabulary substring yields brand and model both absent,
and a selected brand without a whole-word occurrence is reported with an
absent model.  Concretely: `"Seat Skoda Fabia"` selects `"Seat"` (first match
wins, not `"Skoda"`), `"BMW 320d xDrive Touring"` yields
`("BMW", "320d xDrive")`, `"Nißan 370Z"` selects `"Nissan"` via the `ß → SS`
upper-casing but gets no model (the `IGNORECASE` word regex does not match `ß`
against `s`), and `"Fahrrad gebraucht"` yields `(none, none)`. -/
theorem claim_C6_amended :
    (∀ title : String,
        parse_brand_model title =
          (match selectedBrand title.toList with
           | some b => (some b, modelForBrand title.toList b)
           | none => (none, none)))
  ∧ parse_brand_model ("Seat Skoda Fabia") = (some "Seat", some "Skoda Fabia")
  ∧ parse_brand_model ("BMW 320d xDrive Touring") = (some "BMW", some "320d xDrive")
  ∧ parse_brand_model ("Nißan 370Z") = (some "Nissan", none)
  ∧ parse_brand_model ("Fahrrad gebraucht") = (none, none) := by
  refine ⟨?_, by decide, by decide, by decide, by decide⟩
  intro title
  unfold parse_brand_model selectedBrand
  exact parse_go_eq title.toList commonBrands

/-- C7: on text whose cleaned form contains no explicit labelled date and no
relative minutes phrase, and whose first relative hours phrase reads three
hours (as in `"vor 3 Stunden"`), posted-date extraction at source-timezone
wall-clock reference `nowLocal` returns `nowLocal − 3h + offset` as a naive
timestamp. -/
theorem claim_C7 (nowLocal offset : Int) (t : List Char)
    (hx : searchExplicit (cleanPostedText t) = none)
    (hv : listIsSubstr ("vor".toList) ((cleanPostedText t).map pyLowerChar) = true)
    (hm : searchRel ("minute".toList) ((cleanPostedText t).map pyLowerChar) = none)
    (hs : searchRel ("stunde".toList) ((cleanPostedText t).map pyLowerChar) = some 3) :
    extract_posted_date nowLocal offset t = some (nowLocal - 10800 + offset) := by
  unfold extract_posted_date
  dsimp only
  rw [hx, hv]
  simp only [if_true]
  rw [hm, hs]
  norm_num

/-- Witness for C7: `"vor 3 Stunden"` at reference time `0` with the default
one-hour offset yields `-7200` (three hours back, one hour forward). -/
theorem claim_C7_witness :
    extract_posted_date 0 (posted_at_hard_offset 1) ("vor 3 Stunden".toList) =
      some (-7200) := by
  have h := claim_C7 0 (posted_at_hard_offset 1) ("vor 3 Stunden".toList)
    (by decide) (by decide) (by decide) (by decide)
  rw [h]
  norm_num [posted_at_hard_offset]

/-- C8: discovery never propagates an exception — a navigation timeout or
error, an unrendered grid, and an empty candidate set each reset the session
and return the empty batch; a fault escaping the inner handlers is caught by
the outer handler (empty batch, no reset); and a per-candidate extraction
error skips exactly that candidate while the batch continues. -/
theorem claim_C8 (maxCars : Nat) (env : PageEnv) :
    (env.nav = NavOutcome.timeout → scrape_listings maxCars env = ([], true))
  ∧ (env.nav = NavOutcome.navError → scrape_listings maxCars env = ([], true))
  ∧ (env.nav = NavOutcome.success → env.gridRendered = false →
        scrape_listings maxCars env = ([], true))
  ∧ (env.nav = NavOutcome.success → env.gridRendered = true → env.pageFails = false →
        collectCands env.links [] = [] → scrape_listings maxCars env = ([], true))
  ∧ (env.nav = NavOutcome.success → env.gridRendered = true → env.pageFails = false →
        collectCands env.links [] ≠ [] →
        scrape_listings maxCars env =
          (((collectCands env.links []).take maxCars).filterMap (fun c =>
              if c.2.extractFails then none
              else some { c.2.data with listing_id := c.1 }), false))
  ∧ (env.nav = NavOutcome.success → env.gridRendered = true → env.pageFails = true →
        scrape_listings maxCars env = ([], false)) := by
  refine ⟨?_, ?_, ?_, ?_, ?_, ?_⟩
  · intro h
    simp [scrape_listings, scrape_body, h]
  · intro h
    simp [scrape_listings, scrape_body, h]
  · intro h hg
    simp [scrape_listings, scrape_body, h, hg]
  · intro h hg hp hc
    simp [scrape_listings, scrape_body, h, hg, hp, hc]
  · intro h hg hp hc
    have hcf : (collectCands env.links []).isEmpty = false := by
      simpa [List.isEmpty_iff] using hc
    simp [scrape_listings, scrape_body, h, hg, hp, hcf, candidateCars_eq_filterMap]
  · intro h hg hp
    simp [scrape_listings, scrape_body, h, hg, hp]

/-- Witness for C8: a timed-out navigation yields the empty batch with a
session reset, and a healthy page with one good and one failing candidate
yields exactly the good candidate without a reset. -/
theorem claim_C8_witness :
    scrape_listings 40 envTimeoutW = ([], true)
  ∧ scrape_listings 40 envGoodW =
      ([{ plainItem ("x") with listing_id := "1234567" }], false) := by
  constructor
  · exact (claim_C8 40 envTimeoutW).1 rfl
  · have h := (claim_C8 40 envGoodW).2.2.2.2.1 rfl rfl rfl (by decide)
    rw [h]
    decide

/-- C1 counterexample: a batch of five items does not satisfy the deactivation
guard, yet the `is_active` flag of a stored record still changes — an inactive
record whose id reappears in the batch is forced active by the upsert step, so
"otherwise no record's is_active flag changes" is false. -/
theorem claim_C1_counterexample :
    deactivation_guard batchFiveW = false
  ∧ carInactive1W.is_active = false
  ∧ (findById ("1") (store_scraped_cars 100 batchFiveW [carInactive1W]).state).map
      (fun r => r.is_active) = some true := by
  decide

/-- C1 (amended): records absent from the batch are marked inactive exactly
when the guard holds (non-empty id set and more than 10 scraped items) and
they were active, and are otherwise untouched;  records present in the batch
are forced active regardless of the guard. -/
theorem claim_C1_amended (now : Int) (batch : List CarData) (s : List CarRec) (i : String) :
    (i ∉ batch.map (fun d => d.listing_id) →
        findById i (store_scraped_cars now batch s).state =
          (findById i s).map (fun r =>
            { r with is_active := r.is_active && !deactivation_guard batch }))
  ∧ (i ∈ batch.map (fun d => d.listing_id) →
        (findById i (store_scraped_cars now batch s).state).map (fun r => r.is_active) =
          some true) := by
  constructor
  · intro hni
    have hfilter : batch.filter (fun d => d.listing_id == i) = [] := by
      rw [List.filter_eq_nil_iff]
      intro d hd
      simp only [beq_iff_eq]
      intro he
      exact hni (List.mem_map.mpr ⟨d, hd, he⟩)
    have hfold : findById i (upsertBatch now batch s).state = findById i s := by
      rw [upsertBatch_find, hfilter]
      rfl
    rw [store_scraped_cars_state]
    by_cases hg : deactivation_guard batch = true
    · rw [if_pos hg, findById_map_of_id _ (deactivate_absent_listing_id _), hfold]
      cases hfs : findById i s with
      | none => rfl
      | some r =>
        have hid : r.listing_id = i := findById_id i s r hfs
        have hcont : ((batch.map (fun d => d.listing_id)).contains r.listing_id) = false := by
          rw [hid]
          simpa using hni
        simp only [Option.map_some', Option.some_inj]
        unfold deactivate_absent
        rw [hcont, hg]
        simp only [Bool.not_false, Bool.true_and, Bool.not_true, Bool.and_false]
        by_cases hra : r.is_active = true
        · rw [if_pos hra]
        · have hra2 : r.is_active = false := by simpa using hra
          rw [if_neg hra, ← hra2, carrec_set_active_self]
    · have hgf : deactivation_guard batch = false := by simpa using hg
      rw [if_neg hg, hfold]
      cases hfs : findById i s with
      | none => rfl
      | some r =>
        simp only [Option.map_some', Option.some_inj, hgf, Bool.not_false, Bool.and_true]
  · intro hi
    have hfilter : batch.filter (fun d => d.listing_id == i) ≠ [] := by
      rcases List.mem_map.mp hi with ⟨d, hd, he⟩
      intro hnil
      have hk := List.filter_eq_nil_iff.mp hnil d hd
      simp [he] at hk
    have hfold := upsertBatch_find now batch s i
    have hact := syncFoldRecord_active now
      (batch.filter (fun d => d.listing_id == i)) (findById i s) hfilter
    rw [← hfold] at hact
    rw [store_scraped_cars_state]
    by_cases hg : deactivation_guard batch = true
    · cases hfr : findById i (upsertBatch now batch s).state with
      | none => rw [hfr] at hact; simp at hact
      | some r0 =>
        rw [hfr] at hact
        simp only [Option.map_some', Option.some_inj] at hact
        have hid := findById_id i _ r0 hfr
        have hcont : ((batch.map (fun d => d.listing_id)).contains r0.listing_id) = true := by
          rw [hid]
          simpa using hi
        rw [if_pos hg, findById_map_of_id _ (deactivate_absent_listing_id _), hfr]
        simp only [Option.map_some', Option.some_inj]
        unfold deactivate_absent
        rw [hcont]
        simp only [Bool.not_true, Bool.false_and, Bool.false_eq_true, if_false]
        exact hact
    · rw [if_neg hg]
      exact hact

/-- Witness for C1 (amended) on a fifteen-item batch: the stored active record
absent from the batch is deactivated, while a record present in the batch ends
up active. -/
theorem claim_C1_amended_witness :
    findById ("99") (store_scraped_cars 100 batchFifteenW [carAbsent99W]).state =
      some { carAbsent99W with is_active := false }
  ∧ (findById ("1") (store_scraped_cars 100 batchFifteenW [carAbsent99W]).state).map
      (fun r => r.is_active) = some true := by
  constructor
  · have h := (claim_C1_amended 100 batchFifteenW [carAbsent99W] ("99")).1 (by decide)
    rw [h]
    decide
  · exact (claim_C1_amended 100 batchFifteenW [carAbsent99W] ("1")).2 (by decide)

theorem enrich_update_listing_id (now : Int) (det : CarDetails) (car : CarRec) :
    (enrich_update now det car).listing_id = car.listing_id := by
  unfold enrich_update
  cases det.posted_at with
  | none => split <;> rfl
  | some p => dsimp only; split <;> (try dsimp only) <;> split <;> rfl

theorem enrich_update_first_seen (now : Int) (det : CarDetails) (car : CarRec) :
    (enrich_update now det car).first_seen_at = car.first_seen_at := by
  unfold enrich_update
  cases det.posted_at with
  | none => split <;> rfl
  | some p => dsimp only; split <;> (try dsimp only) <;> split <;> rfl

theorem enrich_update_last_seen (now : Int) (det : CarDetails) (car : CarRec) :
    (enrich_update now det car).last_seen_at = car.last_seen_at := by
  unfold enrich_update
  cases det.posted_at with
  | none => split <;> rfl
  | some p => dsimp only; split <;> (try dsimp only) <;> split <;> rfl

theorem priority_update_listing_id (now : Int) (det : CarDetails) (car : CarRec) :
    (priority_update now det car).listing_id = car.listing_id := by
  unfold priority_update
  cases det.posted_at with
  | none => split <;> rfl
  | some p => dsimp only; split <;> (try dsimp only) <;> split <;> rfl

theorem priority_update_first_seen (now : Int) (det : CarDetails) (car : CarRec) :
    (priority_update now det car).first_seen_at = car.first_seen_at := by
  unfold priority_update
  cases det.posted_at with
  | none => split <;> rfl
  | some p => dsimp only; split <;> (try dsimp only) <;> split <;> rfl

theorem priority_update_last_seen (now : Int) (det : CarDetails) (car : CarRec) :
    (priority_update now det car).last_seen_at = car.last_seen_at := by
  unfold priority_update
  cases det.posted_at with
  | none => split <;> rfl
  | some p => dsimp only; split <;> (try dsimp only) <;> split <;> rfl

theorem priority_state (now : Int) (oracle : String → CarDetails)
    (ids : Option (List String)) (maxItems : Nat) (s : List CarRec) :
    (priority_enrich_latest now oracle ids maxItems s).1 = s ∨
    ∃ limited : List String,
      (priority_enrich_latest now oracle ids maxItems s).1 =
        s.map (fun r =>
          if limited.contains r.listing_id then priority_update now (oracle r.listing_id) r
          else r) := by
  cases ids with
  | none => exact Or.inl rfl
  | some l =>
    by_cases hl : l.isEmpty = true
    · exact Or.inl (by simp [priority_enrich_latest, hl])
    · refine Or.inr ⟨(dedupKeepFirst l []).take maxItems, ?_⟩
      simp [priority_enrich_latest, hl]

/-- C9: after synchronisation, background enrichment, priority enrichment and
retention cleanup, every stored record satisfies `first_seen_at ≤
last_seen_at` (given that it held before and that stored `first_seen_at`
values do not lie in the future), and no operation ever modifies the
`first_seen_at` of an existing record (cleanup only deletes records). -/
theorem claim_C9 (now : Int) (batch : List CarData) (oracle : String → CarDetails)
    (ids : Option (List String)) (maxItems : Nat) (s : List CarRec)
    (hinv : ∀ r ∈ s, r.first_seen_at ≤ r.last_seen_at)
    (hclock : ∀ r ∈ s, r.first_seen_at ≤ now) :
    (∀ r ∈ (store_scraped_cars now batch s).state, r.first_seen_at ≤ r.last_seen_at)
  ∧ (∀ r ∈ enrich_cars_with_images now oracle s, r.first_seen_at ≤ r.last_seen_at)
  ∧ (∀ r ∈ (priority_enrich_latest now oracle ids maxItems s).1,
        r.first_seen_at ≤ r.last_seen_at)
  ∧ (∀ r ∈ cleanup_inactive_cars now s, r ∈ s ∧ r.first_seen_at ≤ r.last_seen_at)
  ∧ (∀ i r, findById i s = some r →
        (findById i (store_scraped_cars now batch s).state).map
          (fun x => x.first_seen_at) = some r.first_seen_at)
  ∧ (∀ i, (findById i (enrich_cars_with_images now oracle s)).map
        (fun x => x.first_seen_at) = (findById i s).map (fun x => x.first_seen_at))
  ∧ (∀ i, (findById i (priority_enrich_latest now oracle ids maxItems s).1).map
        (fun x => x.first_seen_at) = (findById i s).map (fun x => x.first_seen_at)) := by
  have hP : ∀ x ∈ (upsertBatch now batch s).state,
      x.first_seen_at ≤ x.last_seen_at ∧ x.first_seen_at ≤ now := by
    apply upsertBatch_forall now
      (fun x => x.first_seen_at ≤ x.last_seen_at ∧ x.first_seen_at ≤ now)
    · intro d x hx
      constructor
      · rw [apply_observation_first_seen, apply_observation_last_seen]
        exact hx.2
      · rw [apply_observation_first_seen]
        exact hx.2
    · intro d
      constructor <;> simp [newCar]
    · intro x hx
      exact ⟨hinv x hx, hclock x hx⟩
  have hefid : ∀ r : CarRec,
      ((fun r => if (selectNeedingImages s).contains r.listing_id then
          enrich_update now (oracle r.listing_id) r else r) r).listing_id = r.listing_id := by
    intro r
    dsimp only
    split
    · exact enrich_update_listing_id now (oracle r.listing_id) r
    · rfl
  refine ⟨?_, ?_, ?_, ?_, ?_, ?_, ?_⟩
  · intro r hr
    rw [store_scraped_cars_state] at hr
    by_cases hg : deactivation_guard batch = true
    · rw [if_pos hg] at hr
      rcases List.mem_map.mp hr with ⟨x, hx, rfl⟩
      rw [deactivate_absent_first_seen, deactivate_absent_last_seen]
      exact (hP x hx).1
    · rw [if_neg hg] at hr
      exact (hP r hr).1
  · intro r hr
    unfold enrich_cars_with_images at hr
    dsimp only at hr
    rcases List.mem_map.mp hr with ⟨x, hx, rfl⟩
    split
    · rw [enrich_update_first_seen, enrich_update_last_seen]
      exact hinv x hx
    · exact hinv x hx
  · intro r hr
    rcases priority_state now oracle ids maxItems s with hs | ⟨limited, hs⟩
    · rw [hs] at hr
      exact hinv r hr
    · rw [hs] at hr
      rcases List.mem_map.mp hr with ⟨x, hx, rfl⟩
      split
      · rw [priority_update_first_seen, priority_update_last_seen]
        exact hinv x hx
      · exact hinv x hx
  · intro r hr
    unfold cleanup_inactive_cars at hr
    have hm := (List.mem_filter.mp hr).1
    exact ⟨hm, hinv r hm⟩
  · intro i r hfs
    rw [store_scraped_cars_state]
    have hfold := upsertBatch_find now batch s i
    rw [hfs] at hfold
    have hfirst := syncFoldRecord_first now (batch.filter (fun d => d.listing_id == i)) r
    by_cases hg : deactivation_guard batch = true
    · rw [if_pos hg, findById_map_of_id _ (deactivate_absent_listing_id _), hfold,
        Option.map_map]
      have hco : ((fun x : CarRec => x.first_seen_at) ∘
          deactivate_absent (batch.map (fun d => d.listing_id))) =
          (fun x : CarRec => x.first_seen_at) := by
        funext x
        exact deactivate_absent_first_seen _ x
      rw [hco, hfirst]
    · rw [if_neg hg, hfold, hfirst]
  · intro i
    unfold enrich_cars_with_images
    dsimp only
    rw [findById_map_of_id _ hefid, Option.map_map]
    have hco : ((fun x : CarRec => x.first_seen_at) ∘
        (fun r => if (selectNeedingImages s).contains r.listing_id then
          enrich_update now (oracle r.listing_id) r else r)) =
        (fun x : CarRec => x.first_seen_at) := by
      funext x
      show (if (selectNeedingImages s).contains x.listing_id then
          enrich_update now (oracle x.listing_id) x else x).first_seen_at = x.first_seen_at
      split
      · exact enrich_update_first_seen now (oracle x.listing_id) x
      · rfl
    rw [hco]
  · intro i
    rcases priority_state now oracle ids maxItems s with hs | ⟨limited, hs⟩
    · rw [hs]
    · have hpfid : ∀ r : CarRec,
          ((fun r => if limited.contains r.listing_id then
              priority_update now (oracle r.listing_id) r else r) r).listing_id =
            r.listing_id := by
        intro r
        dsimp only
        split
        · exact priority_update_listing_id now (oracle r.listing_id) r
        · rfl
      rw [hs, findById_map_of_id _ hpfid, Option.map_map]
      have hco : ((fun x : CarRec => x.first_seen_at) ∘
          (fun r => if limited.contains r.listing_id then
            priority_update now (oracle r.listing_id) r else r)) =
          (fun x : CarRec => x.first_seen_at) := by
        funext x
        show (if limited.contains x.listing_id then
            priority_update now (oracle x.listing_id) x else x).first_seen_at = x.first_seen_at
        split
        · exact priority_update_first_seen now (oracle x.listing_id) x
        · rfl
      rw [hco]

/-- Witness for C9: on a one-record store whose record was first seen at 10
and a one-item batch carrying its id, synchronisation keeps `first_seen_at`
at 10. -/
theorem claim_C9_witness :
    (findById ("w1") (store_scraped_cars 60 [itemW1] [recW1]).state).map
      (fun x => x.first_seen_at) = some 10 := by
  have h := claim_C9 60 [itemW1] oracleOneImageW none 10 [recW1]
    (by decide) (by decide)
  exact (h.2.2.2.2.1 ("w1") recW1 (by decide)).trans rfl
